import Mathlib

/-!
Verification of `qr_to_pos` (camera frame pipeline + QR detection service).

Shallow embedding of the repository under `src/qr_to_pos/`:
* `camera.py`  — `Frame`, `Camera` (frame slot, capture loop, lifecycle),
* `processor.py` — `QRCode`, `ProcessingResult`, `QRCodeProcessor`
  (`process_frame`, `_process_loop`, `_emit_result`, lifecycle),
* `server.py` — `DetectionServer` (`detect`, `decode_image`, `handle`).

External collaborators (the RealSense camera driver, the qrdet detector,
base64/JSON/cv2 codecs and pyzbar) are out of scope of the repository; they
appear as function parameters at exactly the boundary the code calls them.
Images and byte blobs carry no claim-relevant content beyond their
dimensions, so an image is modelled by its height/width and a byte blob by
an opaque `Nat` identifier; wall-clock readings are supplied per iteration
as rational numbers.
-/

/-- Image model for `server.py`: only the shape `(h, w)` of the numpy array
matters to the claims (crop clamping, decode success). -/
structure Image where
  h : Nat
  w : Nat
deriving DecidableEq, Repr

/-- `camera.py` line 11: `Frame(data, timestamp, index)`.  `data` is an
opaque image identifier (`np.ndarray` content is never inspected by the
processor loop, only handed to the detector). -/
structure Frame where
  data : Nat
  timestamp : ℚ
  index : Nat
deriving DecidableEq, Repr

/-- `qrdet` collaborator output, one entry of `detector.detect(...)`:
a dict with `bbox_xyxy`, optional `confidence`, optional `data`
(`detection.get` with defaults in the callers). -/
structure RawDetection where
  bbox_xyxy : Int × Int × Int × Int
  confidence : Option ℚ
  data : Option String
deriving DecidableEq, Repr

/-- `processor.py` line 21: `QRCode(data, bbox, confidence, decoded)`. -/
structure QRCode where
  data : String
  bbox : Option (Int × Int × Int × Int) := none
  confidence : Option ℚ := none
  decoded : Option String := none
deriving DecidableEq, Repr

/-- `processor.py` line 12: `ProcessingResult(result, frame_index,
frame_timestamp, processing_time)`. -/
structure ProcessingResult where
  result : List QRCode
  frame_index : Nat
  frame_timestamp : ℚ
  processing_time : ℚ
deriving DecidableEq, Repr

/-- A detector collaborator for the processor: `none` models
`detector.detect` raising an exception, `some l` the returned list. -/
def Detector : Type := Nat → Option (List RawDetection)

/-- `processor.py` lines 109-139, `QRCodeProcessor.process_frame`.
The whole body is wrapped in `try/except` returning `None`; a raising
detector (`detect frame.data = none`) therefore yields `none`.  Otherwise:
`if not detections: return None`, then one `QRCode` per detection with
`data = detection.get("data", "")`, `bbox = (x1,y1,x2,y2)`,
`confidence = detection.get("confidence", 1.0)`, and finally
`return qr_codes if qr_codes else None`. -/
def process_frame (detect : Detector) (frame : Frame) : Option (List QRCode) :=
  match detect frame.data with
  | none => none
  | some detections =>
    if detections = [] then none
    else
      let qr_codes := detections.map (fun d =>
        { data := d.data.getD ""
          bbox := some d.bbox_xyxy
          confidence := some (d.confidence.getD 1)
          decoded := none })
      if qr_codes = [] then none else some qr_codes

/-- One iteration of `processor.py` lines 68-94 (`_process_loop` body):
`obs` is what `camera.get_latest_frame()` returned this iteration and
`ptime` the measured `time.time()` difference around `process_frame`.
Returns the new `_last_processed_index` and the `ProcessingResult`
emitted this iteration, if any. -/
def processStep (detect : Detector) (last : Int) (obs : Option Frame)
    (ptime : ℚ) : Int × Option ProcessingResult :=
  match obs with
  | none => (last, none)
  | some frame =>
    if (frame.index : Int) ≤ last then (last, none)
    else
      match process_frame detect frame with
      | none => ((frame.index : Int), none)
      | some result =>
        if result.length > 0 then
          ((frame.index : Int),
            some { result := result
                   frame_index := frame.index
                   frame_timestamp := frame.timestamp
                   processing_time := ptime })
        else ((frame.index : Int), none)

/-- `processor.py` lines 68-99, the consumer loop run until `stop()`:
`obs` lists, per iteration, the frame returned by
`camera.get_latest_frame()` together with the measured
processing time.  Returns the sequence of `ProcessingResult`s handed to
`_emit_result`, in emission order. -/
def processLoop (detect : Detector) (last : Int) :
    List (Option Frame × ℚ) → List ProcessingResult
  | [] => []
  | (obs, t) :: rest =>
    match processStep detect last obs t with
    | (last2, none) => processLoop detect last2 rest
    | (last2, some r) => r :: processLoop detect last2 rest

/-! ### Frame slot (`camera.py`)

`Camera._latest_frame` is a single `Frame | None` cell guarded by
`_frame_lock`: line 127-128 (`self._latest_frame = frame`) is `publish`,
lines 83-86 (`get_latest_frame`) read it back.  A history of publishes is
a `List Frame` folded over the slot, initial value `None` (line 50). -/

/-- `camera.py` lines 126-128: publishing overwrites the slot. -/
def publish (_slot : Option Frame) (frame : Frame) : Option Frame :=
  some frame

/-- `camera.py` lines 83-86: `get_latest_frame` returns the slot content. -/
def get_latest_frame (slot : Option Frame) : Option Frame :=
  slot

/-- The slot after a sequence of publishes, starting empty
(`self._latest_frame: Frame | None = None`, line 50). -/
def slotAfter (frames : List Frame) : Option Frame :=
  frames.foldl publish none

/-! ### Subscriber delivery (`camera.py` 131-136, `processor.py` 101-107)

A callback either returns or raises; the delivery loop wraps each call in
`try/except` that logs and moves on.  `invokeCb` is one guarded call,
`deliverAll` the `for callback in self._callbacks` loop (the same shape in
both files, instantiated at `Frame` and at `ProcessingResult`). -/

/-- A subscriber callback: `Except.error` models the callback raising. -/
def Callback (α : Type) : Type := α → Except String Unit

/-- One guarded callback invocation: the exception is caught and logged
(`except Exception as e: print(...)`), never propagated. -/
def invokeCb {α : Type} (cb : Callback α) (x : α) : Option String :=
  match cb x with
  | Except.ok _ => none
  | Except.error e => some e

/-- The delivery loop over the registered callbacks, returning the logged
error (if any) per callback. -/
def deliverAll {α : Type} (cbs : List (Callback α)) (x : α) : List (Option String) :=
  cbs.map (fun cb => invokeCb cb x)

/-! ### Lock trace of the delivery loops

`camera.py` 131-136 and `processor.py` 101-107 both read
`with self._callback_lock: for callback in self._callbacks: ...callback(...)`:
the lock is acquired, every callback body runs, then the lock is released.
The atomic events of one delivery are recorded as a trace. -/

/-- Atomic events of a delivery: acquiring/releasing `_callback_lock` and
running the body of the i-th registered callback. -/
inductive LockEvent where
  | acquire
  | release
  | invoke (i : Nat)
deriving DecidableEq, Repr

/-- `camera.py` lines 131-136: the event trace of delivering one frame to
`n` registered callbacks. -/
def cameraDeliverTrace (n : Nat) : List LockEvent :=
  [LockEvent.acquire] ++ (List.range n).map LockEvent.invoke ++ [LockEvent.release]

/-- `processor.py` lines 101-107 (`_emit_result`): the event trace of
delivering one result to `n` registered callbacks. -/
def emitResultTrace (n : Nat) : List LockEvent :=
  [LockEvent.acquire] ++ (List.range n).map LockEvent.invoke ++ [LockEvent.release]

/-- Net lock depth contributed by a list of events. -/
def lockDepth : List LockEvent → Int
  | [] => 0
  | LockEvent.acquire :: rest => 1 + lockDepth rest
  | LockEvent.release :: rest => -1 + lockDepth rest
  | LockEvent.invoke _ :: rest => lockDepth rest

/-- The lock is held at position `k` of a trace: the events before `k`
leave a positive lock depth. -/
def heldAt (tr : List LockEvent) (k : Nat) : Prop :=
  0 < lockDepth (tr.take k)

instance (tr : List LockEvent) (k : Nat) : Decidable (heldAt tr k) := by
  unfold heldAt; infer_instance

/-! ### Lifecycle state machines (`camera.py` 62-81, `processor.py` 52-66)

`start`/`stop` are modelled as pure transitions on the flag
state, paired with the list of side effects they perform; a no-op is the
unchanged state with no effects.  All transitions are total functions:
none of them can raise. -/

/-- Observable side effects of `Camera.start`/`Camera.stop`. -/
inductive CamEffect where
  | pipelineStart
  | pipelineStop
  | threadStart
  | threadJoin
  | destroyWindow
deriving DecidableEq, Repr

/-- The flags of `Camera` relevant to its lifecycle: `_running` (line 54)
and `_visualization_running` (line 59), both `False` at construction. -/
structure CameraState where
  running : Bool
  visRunning : Bool
deriving DecidableEq, Repr

/-- `camera.py` lines 170-176, `stop_visualization`: no-op unless the
visualization loop is running, else clears the flag and destroys the
window. -/
def Camera.stopVisualization (s : CameraState) : CameraState × List CamEffect :=
  if !s.visRunning then (s, [])
  else ({ s with visRunning := false }, [CamEffect.destroyWindow])

/-- `camera.py` lines 62-70, `Camera.start`: return immediately when
already running; otherwise start the RealSense pipeline, set `_running`,
and spawn the capture thread. -/
def Camera.start (s : CameraState) : CameraState × List CamEffect :=
  if s.running then (s, [])
  else ({ s with running := true }, [CamEffect.pipelineStart, CamEffect.threadStart])

/-- `camera.py` lines 72-81, `Camera.stop`: first `stop_visualization()`,
then return if not running, else clear `_running`, join the capture
thread and stop the pipeline. -/
def Camera.stop (s : CameraState) : CameraState × List CamEffect :=
  let sv := Camera.stopVisualization s
  if !sv.1.running then sv
  else ({ sv.1 with running := false },
    sv.2 ++ [CamEffect.threadJoin, CamEffect.pipelineStop])

/-- Observable side effects of `QRCodeProcessor.start`/`stop`. -/
inductive ProcEffect where
  | threadStart
  | threadJoin
deriving DecidableEq, Repr

/-- `processor.py` lines 52-58, `QRCodeProcessor.start`: return when
`_running` is set, else set it and spawn the processing thread. -/
def QRCodeProcessor.start (running : Bool) : Bool × List ProcEffect :=
  if running then (running, [])
  else (true, [ProcEffect.threadStart])

/-- `processor.py` lines 60-66, `QRCodeProcessor.stop`: return when
`_running` is clear, else clear it and join the processing thread. -/
def QRCodeProcessor.stop (running : Bool) : Bool × List ProcEffect :=
  if !running then (running, [])
  else (false, [ProcEffect.threadJoin])

/-! ### Detection server (`server.py`)

Collaborators at the boundary of `DetectionServer`:
* `json.loads` — `parse : String → Option JsonObj` (`none` models
  `json.JSONDecodeError`; a successfully parsed JSON object is modelled
  by its optional string-valued `"image"` member, the only member the
  handler reads via `payload.get("image")`),
* `base64.b64decode` — `b64decode : String → Nat` (an opaque byte blob),
* `cv2.imdecode` — `imdecode : Nat → Option Image` (`None` return models
  a failed decode),
* `self.detector.detect` — `detectRaw : Image → List RawDetection`,
* `pyzbar.decode` — `pyzbarDecode : Image → Int × Int × Int × Int →
  List String`, given the grayscale image and the crop bounds
  `(rowLo, rowHi, colLo, colHi)`; the handler keeps `results[0]` if any. -/

/-- A parsed JSON object, restricted to the single member `handle` reads:
`payload.get("image")` (`none` when the key is absent). -/
structure JsonObj where
  image : Option String
deriving DecidableEq, Repr

/-- `server.py` lines 45-47: padded crop bounds of the grayscale image,
clamped by `max(0, ·)` and `min(h or w, ·)` —
`gray[max(0, y1 - pad) : min(h, y2 + pad), max(0, x1 - pad) : min(w, x2 + pad)]`
with `pad = 10`.  Returns `(rowLo, rowHi, colLo, colHi)`. -/
def cropBounds (h w : Nat) (x1 y1 x2 y2 : Int) : Int × Int × Int × Int :=
  (max 0 (y1 - 10), min (h : Int) (y2 + 10), max 0 (x1 - 10), min (w : Int) (x2 + 10))

/-- A numpy slice `a[lo:hi]` of an axis of length `n` is a valid
(possibly empty) sub-array when its clamped endpoints lie in `[0, n]`. -/
def validSlice (n : Nat) (lo hi : Int) : Prop :=
  0 ≤ lo ∧ lo ≤ (n : Int) ∧ 0 ≤ hi ∧ hi ≤ (n : Int)

instance (n : Nat) (lo hi : Int) : Decidable (validSlice n lo hi) := by
  unfold validSlice; infer_instance

/-- `server.py` lines 40-60, the per-detection body of
`DetectionServer.detect`: take the integer bbox, crop the clamped padded
grayscale region, decode it with pyzbar (`results[0]` when non-empty) and
build a `QRCode` with `data = detection.get("data", "")` and
`confidence = detection.get("confidence", 1.0)`. -/
def serverQRofDetection (pyzbarDecode : Image → Int × Int × Int × Int → List String)
    (gray : Image) (d : RawDetection) : QRCode :=
  let (x1, y1, x2, y2) := d.bbox_xyxy
  let crop := cropBounds gray.h gray.w x1 y1 x2 y2
  let decoded := (pyzbarDecode gray crop).head?
  { data := d.data.getD ""
    bbox := some (x1, y1, x2, y2)
    confidence := some (d.confidence.getD 1)
    decoded := decoded }

/-- `server.py` lines 32-61, `DetectionServer.detect`: run the detector and
build one `QRCode` per detection, in order (the grayscale conversion on
line 37 preserves the shape of the image, which is all the model keeps). -/
def DetectionServer.detect (detectRaw : Image → List RawDetection)
    (pyzbarDecode : Image → Int × Int × Int × Int → List String)
    (image : Image) : List QRCode :=
  let detections := detectRaw image
  if detections = [] then []
  else
    let gray := image
    detections.map (serverQRofDetection pyzbarDecode gray)

/-- `server.py` lines 63-68, `decode_image`: `cv2.imdecode` returning
`None` raises `ValueError("Failed to decode image")`. -/
def decode_image (imdecode : Nat → Option Image) (raw : Nat) :
    Except String Image :=
  match imdecode raw with
  | none => Except.error "Failed to decode image"
  | some image => Except.ok image

/-- `round(x, 4)` of `server.py` line 97, over the rationals: round to the
nearest multiple of `1/10000`. -/
def round4 (q : ℚ) : ℚ :=
  (round (q * 10000) : ℤ) / 10000

/-- One entry of the `"detections"` array of a successful response:
`dataclasses.asdict(qr)` keeps exactly the four `QRCode` fields, with
`data` a string, `bbox` a 4-integer tuple or `null`, `confidence` a
number or `null`, `decoded` a string or `null`. -/
structure DetectionJson where
  data : String
  bbox : Option (Int × Int × Int × Int)
  confidence : Option ℚ
  decoded : Option String
deriving DecidableEq, Repr

/-- `dataclasses.asdict` on a `QRCode` (`server.py` line 95). -/
def asdict (qr : QRCode) : DetectionJson :=
  { data := qr.data
    bbox := qr.bbox
    confidence := qr.confidence
    decoded := qr.decoded }

/-- The single JSON text message sent back per inbound message. -/
inductive Response where
  | err (msg : String)
  | ok (detections : List DetectionJson) (count : Nat) (processing_time : ℚ)
deriving DecidableEq, Repr

/-- An inbound websocket message: raw bytes, text, or any other type. -/
inductive WsMessage where
  | bytes (b : Nat)
  | text (s : String)
  | other
deriving DecidableEq, Repr

/-- `server.py` lines 90-99: build the successful response from the
detected codes and the elapsed `time.perf_counter()` difference. -/
def successResponse (qr_codes : List QRCode) (elapsed : ℚ) : Response :=
  Response.ok (qr_codes.map asdict) qr_codes.length (round4 elapsed)

/-- `server.py` lines 70-106, the body of `handle` for one inbound
message (`elapsed` is the measured detection time of this message):
bytes are decoded directly; text goes through `json.loads` (failure →
`"Invalid JSON"`), then `payload.get("image")` (absent →
the missing-field error), then base64 + image decode; any other type →
the unsupported-type error.  The `ValueError` of `decode_image` is caught by
`except ValueError as e` and answered with `str(e)`. -/
def handleMessage (parse : String → Option JsonObj) (b64decode : String → Nat)
    (imdecode : Nat → Option Image) (detectRaw : Image → List RawDetection)
    (pyzbarDecode : Image → Int × Int × Int × Int → List String)
    (elapsed : ℚ) (msg : WsMessage) : Response :=
  match msg with
  | WsMessage.bytes b =>
    match decode_image imdecode b with
    | Except.error e => Response.err e
    | Except.ok image =>
      successResponse (DetectionServer.detect detectRaw pyzbarDecode image) elapsed
  | WsMessage.text s =>
    match parse s with
    | none => Response.err "Invalid JSON"
    | some payload =>
      match payload.image with
      | none => Response.err "Missing \x27image\x27 field"
      | some image_b64 =>
        match decode_image imdecode (b64decode image_b64) with
        | Except.error e => Response.err e
        | Except.ok image =>
          successResponse (DetectionServer.detect detectRaw pyzbarDecode image) elapsed
  | WsMessage.other => Response.err "Unsupported message type"

/-- `server.py` line 71, `async for message in websocket`: the
per-connection loop answers every inbound message in turn; every branch
of the body (success and all error branches) ends in one `send` followed
by the next iteration, so the loop never exits early. -/
def handleLoop (parse : String → Option JsonObj) (b64decode : String → Nat)
    (imdecode : Nat → Option Image) (detectRaw : Image → List RawDetection)
    (pyzbarDecode : Image → Int × Int × Int × Int → List String) :
    List (WsMessage × ℚ) → List Response
  | [] => []
  | (msg, t) :: rest =>
    handleMessage parse b64decode imdecode detectRaw pyzbarDecode t msg ::
      handleLoop parse b64decode imdecode detectRaw pyzbarDecode rest

/-- Python slice semantics (unit step) on an axis of length `n`: the
effective `(start, stop)` pair of `a[lo:hi]` — a negative endpoint counts
from the end, and both endpoints are clamped into `[0, n]`; the slice
then reads exactly the indices in `[start, stop)` (empty when
`start ≥ stop`), so it can never touch an index outside `[0, n)`. -/
def sliceIndices (n : Nat) (lo hi : Int) : Nat × Nat :=
  let start := if lo < 0 then max 0 ((n : Int) + lo) else min lo (n : Int)
  let stop := if hi < 0 then max 0 ((n : Int) + hi) else min hi (n : Int)
  (start.toNat, stop.toNat)

/-! ## Helper lemmas -/

/-- Loop invariant of `_process_loop`: every result emitted from
`_last_processed_index = last` carries a strictly larger frame index, and
the emitted indices are strictly increasing among themselves. -/
theorem processLoop_mono (detect : Detector) :
    ∀ (obs : List (Option Frame × ℚ)) (last : Int),
      (∀ r ∈ processLoop detect last obs, last < (r.frame_index : Int)) ∧
      (processLoop detect last obs).Pairwise
        (fun a b => a.frame_index < b.frame_index) := by
  intro obs
  induction obs with
  | nil => intro last; exact ⟨by simp [processLoop], by simp [processLoop]⟩
  | cons p rest ih =>
    intro last
    obtain ⟨o, t⟩ := p
    cases o with
    | none => simpa [processLoop, processStep] using ih last
    | some f =>
      by_cases hle : (f.index : Int) ≤ last
      · simpa [processLoop, processStep, hle] using ih last
      · push_neg at hle
        cases hpf : process_frame detect f with
        | none =>
          have h2 := ih (f.index : Int)
          refine ⟨?_, ?_⟩
          · intro r hr
            rw [processLoop] at hr
            simp only [processStep, if_neg (not_le.mpr hle), hpf] at hr
            exact lt_trans hle (h2.1 r hr)
          · rw [processLoop]
            simp only [processStep, if_neg (not_le.mpr hle), hpf]
            exact h2.2
        | some result =>
          have h2 := ih (f.index : Int)
          by_cases hlen : result.length > 0
          · refine ⟨?_, ?_⟩
            · intro r hr
              rw [processLoop] at hr
              simp only [processStep, if_neg (not_le.mpr hle), hpf,
                if_pos hlen, List.mem_cons] at hr
              rcases hr with rfl | hr
              · exact hle
              · exact lt_trans hle (h2.1 r hr)
            · rw [processLoop]
              simp only [processStep, if_neg (not_le.mpr hle), hpf, if_pos hlen]
              refine List.Pairwise.cons ?_ h2.2
              intro r hr
              exact_mod_cast h2.1 r hr
          · refine ⟨?_, ?_⟩
            · intro r hr
              rw [processLoop] at hr
              simp only [processStep, if_neg (not_le.mpr hle), hpf,
                if_neg hlen] at hr
              exact lt_trans hle (h2.1 r hr)
            · rw [processLoop]
              simp only [processStep, if_neg (not_le.mpr hle), hpf, if_neg hlen]
              exact h2.2

/-- Helper for C9: every result emitted by the consumer loop carries a
non-empty detection list (the loop only emits when `len(result) > 0`). -/
theorem processLoop_result_ne_nil (detect : Detector) :
    ∀ (obs : List (Option Frame × ℚ)) (last : Int) (r : ProcessingResult),
      r ∈ processLoop detect last obs → r.result ≠ [] := by
  intro obs
  induction obs with
  | nil => intro last r hr; simp [processLoop] at hr
  | cons p rest ih =>
    intro last r hr
    obtain ⟨o, t⟩ := p
    cases o with
    | none =>
      rw [processLoop] at hr
      simp only [processStep] at hr
      exact ih last r hr
    | some f =>
      by_cases hle : (f.index : Int) ≤ last
      · rw [processLoop] at hr
        simp only [processStep, if_pos hle] at hr
        exact ih last r hr
      · cases hpf : process_frame detect f with
        | none =>
          rw [processLoop] at hr
          simp only [processStep, if_neg hle, hpf] at hr
          exact ih _ r hr
        | some result =>
          by_cases hlen : result.length > 0
          · rw [processLoop] at hr
            simp only [processStep, if_neg hle, hpf, if_pos hlen,
              List.mem_cons] at hr
            rcases hr with rfl | hr
            · simpa using List.length_pos.mp hlen
            · exact ih _ r hr
          · rw [processLoop] at hr
            simp only [processStep, if_neg hle, hpf, if_neg hlen] at hr
            exact ih _ r hr

/-! ## Claim theorems -/

/-- C1: in every execution of the consumer loop of `QRCodeProcessor`
(`_process_loop`), started from the initial `_last_processed_index = -1`,
the `frame_index` values carried by the `ProcessingResult`s delivered to
result subscribers are strictly increasing — in particular a frame whose
index is at most the last processed index is never delivered again and no
`frame_index` occurs twice. -/
theorem c1_delivered_frame_indices_strictly_increasing
    (detect : Detector) (obs : List (Option Frame × ℚ)) :
    (processLoop detect (-1) obs).Pairwise
      (fun a b => a.frame_index < b.frame_index) :=
  (processLoop_mono detect obs (-1)).2

/-- C2: after a sequence of publishes into the single-slot frame store
(starting empty), `get_latest_frame` returns exactly the most recently
published frame — the last element of the publish history, hence the Nth
frame after N publishes — and `none` when nothing was published. -/
theorem c2_latest_returns_most_recent_publish (frames : List Frame) :
    get_latest_frame (slotAfter frames) = frames.getLast? ∧
    (∀ f : Frame, get_latest_frame (slotAfter (frames ++ [f])) = some f) ∧
    get_latest_frame (slotAfter []) = none := by
  refine ⟨?_, ?_, rfl⟩
  · induction frames using List.reverseRecOn with
    | nil => rfl
    | append_singleton l f _ => simp [slotAfter, get_latest_frame, publish]
  · intro f
    simp [slotAfter, get_latest_frame, publish]

/-- C3: when the detector returns zero detections or raises (both give
`process_frame = none`) on a fresh frame, the iteration emits no
`ProcessingResult`, yet still advances `_last_processed_index` to the
index of that frame, and the loop goes on processing the remaining
iterations from that advanced index. -/
theorem c3_failed_detection_advances_index_and_continues
    (detect : Detector) (last : Int) (f : Frame) (t : ℚ)
    (rest : List (Option Frame × ℚ))
    (hnew : last < (f.index : Int))
    (hfail : detect f.data = none ∨ detect f.data = some []) :
    processStep detect last (some f) t = ((f.index : Int), none) ∧
    processLoop detect last ((some f, t) :: rest) =
      processLoop detect (f.index : Int) rest := by
  have hpf : process_frame detect f = none := by
    rcases hfail with h | h <;> simp [process_frame, h]
  constructor
  · simp [processStep, not_le.mpr hnew, hpf]
  · rw [processLoop]
    simp [processStep, not_le.mpr hnew, hpf]

/-- Witness for C3 at a concrete input: a detector that always raises, a
frame of index 5 against a last processed index of -1. -/
theorem c3_witness :
    processStep (fun _ => none) (-1) (some ⟨0, 0, 5⟩) 0 = (5, none) ∧
    processLoop (fun _ => none) (-1) [(some ⟨0, 0, 5⟩, 0)] =
      processLoop (fun _ => none) 5 [] :=
  c3_failed_detection_advances_index_and_continues
    (fun _ => none) (-1) ⟨0, 0, 5⟩ 0 [] (by decide) (Or.inl rfl)

/-- C9: `process_frame` never returns an empty detection list (it returns
`none` instead), and accordingly every `ProcessingResult` emitted by the
consumer loop holds at least one `QRCode`. -/
theorem c9_emitted_results_are_nonempty
    (detect : Detector) (f : Frame) (last : Int)
    (obs : List (Option Frame × ℚ)) :
    process_frame detect f ≠ some [] ∧
    ∀ r ∈ processLoop detect last obs, r.result ≠ [] := by
  constructor
  · unfold process_frame
    cases hd : detect f.data with
    | none => simp
    | some detections =>
      by_cases hnil : detections = []
      · simp [hnil]
      · simp only [if_neg hnil]
        intro hcontra
        rw [if_neg] at hcontra
        · exact hnil (by simpa using (Option.some_injective _ hcontra))
        · simpa using hnil
  · exact fun r hr => processLoop_result_ne_nil detect obs last r hr

/-- Witness for C9 at a concrete input: a detector returning one
detection on a frame of index 0 emits exactly one result, whose list is
non-empty. -/
theorem c9_witness :
    (⟨[⟨"x", some (0, 0, 1, 1), some 1, none⟩], 0, 0, 0⟩ :
      ProcessingResult).result ≠ [] :=
  (c9_emitted_results_are_nonempty
      (fun _ => some [⟨(0, 0, 1, 1), some 1, some "x"⟩]) ⟨0, 0, 0⟩ (-1)
      [(some ⟨0, 0, 0⟩, 0)]).2
    ⟨[⟨"x", some (0, 0, 1, 1), some 1, none⟩], 0, 0, 0⟩ (by decide)

/-- C4: per inbound message of the `DetectionService` connection loop —
valid JSON without the image key answers with the missing-field error;
invalid JSON answers with the invalid-JSON error; a message that is
neither bytes nor text answers with the unsupported-type error; an image
that fails to decode answers with the decode failure message; and the
per-connection loop always continues to the next message after an answer
(one response per inbound message, the connection stays open). -/
theorem c4_error_responses_and_open_connection
    (parse : String → Option JsonObj) (b64decode : String → Nat)
    (imdecode : Nat → Option Image) (detectRaw : Image → List RawDetection)
    (pyzbarDecode : Image → Int × Int × Int × Int → List String)
    (t : ℚ) (s1 s2 : String) (p : JsonObj) (b : Nat)
    (m : WsMessage) (tm : ℚ) (rest : List (WsMessage × ℚ)) :
    (parse s1 = some p → p.image = none →
      handleMessage parse b64decode imdecode detectRaw pyzbarDecode t
        (WsMessage.text s1) = Response.err "Missing \x27image\x27 field") ∧
    (parse s2 = none →
      handleMessage parse b64decode imdecode detectRaw pyzbarDecode t
        (WsMessage.text s2) = Response.err "Invalid JSON") ∧
    (handleMessage parse b64decode imdecode detectRaw pyzbarDecode t
      WsMessage.other = Response.err "Unsupported message type") ∧
    (imdecode b = none →
      handleMessage parse b64decode imdecode detectRaw pyzbarDecode t
        (WsMessage.bytes b) = Response.err "Failed to decode image") ∧
    (handleLoop parse b64decode imdecode detectRaw pyzbarDecode
        ((m, tm) :: rest) =
      handleMessage parse b64decode imdecode detectRaw pyzbarDecode tm m ::
        handleLoop parse b64decode imdecode detectRaw pyzbarDecode rest) := by
  refine ⟨?_, ?_, rfl, ?_, rfl⟩
  · intro h1 h2
    simp [handleMessage, h1, h2]
  · intro h
    simp [handleMessage, h]
  · intro h
    simp [handleMessage, decode_image, h]

/-- Witness for C4 at concrete inputs: a parser that accepts only the
text "ok" (as an object without the image key), an image decoder that
always fails, and one message of each kind. -/
theorem c4_witness :
    (handleMessage (fun s => if s = "ok" then some ⟨none⟩ else none)
        (fun _ => 0) (fun _ => none) (fun _ => []) (fun _ _ => []) 0
        (WsMessage.text "ok") = Response.err "Missing \x27image\x27 field") ∧
    (handleMessage (fun s => if s = "ok" then some ⟨none⟩ else none)
        (fun _ => 0) (fun _ => none) (fun _ => []) (fun _ _ => []) 0
        (WsMessage.text "bad") = Response.err "Invalid JSON") ∧
    (handleMessage (fun s => if s = "ok" then some ⟨none⟩ else none)
        (fun _ => 0) (fun _ => none) (fun _ => []) (fun _ _ => []) 0
        WsMessage.other = Response.err "Unsupported message type") ∧
    (handleMessage (fun s => if s = "ok" then some ⟨none⟩ else none)
        (fun _ => 0) (fun _ => none) (fun _ => []) (fun _ _ => []) 0
        (WsMessage.bytes 7) = Response.err "Failed to decode image") ∧
    (handleLoop (fun s => if s = "ok" then some ⟨none⟩ else none)
        (fun _ => 0) (fun _ => none) (fun _ => []) (fun _ _ => [])
        ((WsMessage.other, 0) :: []) =
      handleMessage (fun s => if s = "ok" then some ⟨none⟩ else none)
        (fun _ => 0) (fun _ => none) (fun _ => []) (fun _ _ => []) 0
        WsMessage.other ::
        handleLoop (fun s => if s = "ok" then some ⟨none⟩ else none)
          (fun _ => 0) (fun _ => none) (fun _ => []) (fun _ _ => []) []) := by
  have h := c4_error_responses_and_open_connection
    (fun s => if s = "ok" then some ⟨none⟩ else none) (fun _ => 0)
    (fun _ => none) (fun _ => []) (fun _ _ => []) 0 "ok" "bad" ⟨none⟩ 7
    WsMessage.other 0 []
  exact ⟨h.1 (by decide) rfl, h.2.1 (by decide), h.2.2.1, h.2.2.2.1 rfl,
    h.2.2.2.2⟩

/-- C5: when the inbound image decodes successfully, the handler answers
with a single structured response whose detections are the ordered
`asdict` images of the detected codes, whose count equals the length of
that detections list, and whose processing time is the elapsed detection
time rounded to 4 decimal places; the detections preserve the order of
the raw detector output (one entry per raw detection), and each entry
carries exactly the fields data, bbox (4 integers or none), confidence
and decoded of the corresponding `QRCode`. -/
theorem c5_success_response_shape
    (parse : String → Option JsonObj) (b64decode : String → Nat)
    (imdecode : Nat → Option Image) (detectRaw : Image → List RawDetection)
    (pyzbarDecode : Image → Int × Int × Int × Int → List String)
    (t : ℚ) (b : Nat) (img : Image)
    (hdec : imdecode b = some img) :
    handleMessage parse b64decode imdecode detectRaw pyzbarDecode t
        (WsMessage.bytes b) =
      Response.ok
        ((DetectionServer.detect detectRaw pyzbarDecode img).map asdict)
        (DetectionServer.detect detectRaw pyzbarDecode img).length
        (round4 t) ∧
    ((DetectionServer.detect detectRaw pyzbarDecode img).map asdict).length =
      (DetectionServer.detect detectRaw pyzbarDecode img).length ∧
    DetectionServer.detect detectRaw pyzbarDecode img =
      (detectRaw img).map (serverQRofDetection pyzbarDecode img) ∧
    (∀ d : RawDetection,
      serverQRofDetection pyzbarDecode img d =
        { data := d.data.getD ""
          bbox := some d.bbox_xyxy
          confidence := some (d.confidence.getD 1)
          decoded := (pyzbarDecode img (cropBounds img.h img.w
            d.bbox_xyxy.1 d.bbox_xyxy.2.1 d.bbox_xyxy.2.2.1
            d.bbox_xyxy.2.2.2)).head? }) ∧
    (∀ qr : QRCode,
      asdict qr = ⟨qr.data, qr.bbox, qr.confidence, qr.decoded⟩) := by
  refine ⟨?_, List.length_map _ _, ?_, ?_, fun _ => rfl⟩
  · simp [handleMessage, decode_image, hdec, successResponse]
  · unfold DetectionServer.detect
    by_cases hnil : detectRaw img = []
    · simp [hnil]
    · simp [hnil]
  · intro d
    obtain ⟨⟨x1, y1, x2, y2⟩, conf, dat⟩ := d
    rfl

/-- Witness for C5 at a concrete input: a 10 by 10 image carrying one raw
detection, a pyzbar that decodes "hi". -/
theorem c5_witness :
    handleMessage (fun _ => none) (fun _ => 0) (fun _ => some ⟨10, 10⟩)
        (fun _ => [⟨(1, 2, 3, 4), some 1, some "x"⟩]) (fun _ _ => ["hi"])
        (1 / 2) (WsMessage.bytes 0) =
      Response.ok [⟨"x", some (1, 2, 3, 4), some 1, some "hi"⟩] 1
        (round4 (1 / 2)) := by
  have h := c5_success_response_shape (fun _ => none) (fun _ => 0)
    (fun _ => some ⟨10, 10⟩) (fun _ => [⟨(1, 2, 3, 4), some 1, some "x"⟩])
    (fun _ _ => ["hi"]) (1 / 2) 0 ⟨10, 10⟩ rfl
  rw [h.1]
  rfl

/-- C6: delivering a frame or a result to the registered subscribers
invokes every callback exactly once in registration order; a callback
that raises has its exception caught (logged as the returned message)
and neither prevents the remaining callbacks from being invoked nor
escapes the delivery loop (`deliverAll` is a total function). -/
theorem c6_subscriber_exception_isolation {α : Type}
    (cbs : List (Callback α)) (cb : Callback α) (x : α) (i : Nat) :
    (deliverAll cbs x).length = cbs.length ∧
    deliverAll (cb :: cbs) x = invokeCb cb x :: deliverAll cbs x ∧
    (deliverAll cbs x)[i]? = (cbs[i]?).map (fun c => invokeCb c x) ∧
    (∀ e : String, cb x = Except.error e →
      deliverAll (cb :: cbs) x = some e :: deliverAll cbs x) := by
  refine ⟨List.length_map _ _, rfl, ?_, ?_⟩
  · simp [deliverAll]
  · intro e he
    simp [deliverAll, invokeCb, he]

/-- Witness for C6 at a concrete input: a callback that always raises
followed by one that succeeds; the raising callback is logged and the
second one is still invoked. -/
theorem c6_witness :
    deliverAll ((fun _ => Except.error "boom") ::
        ([fun _ => Except.ok ()] : List (Callback Nat))) 0 =
      some "boom" ::
        deliverAll ([fun _ => Except.ok ()] : List (Callback Nat)) 0 :=
  (c6_subscriber_exception_isolation ([fun _ => Except.ok ()] :
      List (Callback Nat)) (fun _ => Except.error "boom") 0 0).2.2.2
    "boom" rfl

/-- C7: for both components, `start()` on a running component is a no-op;
`stop()` on a component that never started (or was already stopped) is a
no-op that cannot raise (all transitions are total functions); and a
second `stop()` right after a first one is a no-op. -/
theorem c7_start_stop_idempotent
    (s1 s2 s : CameraState) (b : Bool)
    (h1 : s1.running = true)
    (h2r : s2.running = false) (h2v : s2.visRunning = false) :
    Camera.start s1 = (s1, []) ∧
    Camera.stop s2 = (s2, []) ∧
    Camera.stop (Camera.stop s).1 = ((Camera.stop s).1, []) ∧
    QRCodeProcessor.start true = (true, []) ∧
    QRCodeProcessor.stop false = (false, []) ∧
    QRCodeProcessor.stop (QRCodeProcessor.stop b).1 =
      ((QRCodeProcessor.stop b).1, []) := by
  refine ⟨?_, ?_, ?_, rfl, rfl, ?_⟩
  · simp [Camera.start, h1]
  · simp [Camera.stop, Camera.stopVisualization, h2r, h2v]
  · obtain ⟨r, v⟩ := s
    cases r <;> cases v <;> rfl
  · cases b <;> rfl

/-- Witness for C7 at concrete states: a running camera, a fresh camera,
a running camera with live visualization stopped twice, and the
processor in both flag states. -/
theorem c7_witness :
    Camera.start ⟨true, false⟩ = (⟨true, false⟩, []) ∧
    Camera.stop ⟨false, false⟩ = (⟨false, false⟩, []) ∧
    Camera.stop (Camera.stop ⟨true, true⟩).1 =
      ((Camera.stop ⟨true, true⟩).1, []) ∧
    QRCodeProcessor.start true = (true, []) ∧
    QRCodeProcessor.stop false = (false, []) ∧
    QRCodeProcessor.stop (QRCodeProcessor.stop true).1 =
      ((QRCodeProcessor.stop true).1, []) :=
  c7_start_stop_idempotent ⟨true, false⟩ ⟨false, false⟩ ⟨true, true⟩ true
    rfl rfl rfl

/-- Helper for C8: a run of callback-invocation events neither acquires
nor releases the lock. -/
theorem lockDepth_map_invoke (l : List Nat) :
    lockDepth (l.map LockEvent.invoke) = 0 := by
  induction l with
  | nil => rfl
  | cons a l ih => simpa [lockDepth] using ih

/-- Helper for C8: in the delivery trace, any position holding a callback
invocation lies strictly between the acquire and the release, so the lock
depth before it is positive. -/
theorem deliver_trace_held (n k i : Nat)
    (h : (cameraDeliverTrace n)[k]? = some (LockEvent.invoke i)) :
    heldAt (cameraDeliverTrace n) k := by
  unfold cameraDeliverTrace at h ⊢
  unfold heldAt
  match k with
  | 0 => simp at h
  | Nat.succ j =>
    have hcons : [LockEvent.acquire] ++ (List.range n).map LockEvent.invoke ++
        [LockEvent.release] = LockEvent.acquire ::
        ((List.range n).map LockEvent.invoke ++ [LockEvent.release]) := by
      simp
    rw [hcons] at h ⊢
    rw [List.getElem?_cons_succ] at h
    have hj : j < n := by
      by_contra hge
      push_neg at hge
      have hlen : ((List.range n).map LockEvent.invoke).length ≤ j := by
        simpa using hge
      rw [List.getElem?_append_right hlen] at h
      cases hd : j - ((List.range n).map LockEvent.invoke).length with
      | zero => rw [hd] at h; simp at h
      | succ d => rw [hd] at h; simp at h
    have ht : ((List.range n).map LockEvent.invoke ++
        [LockEvent.release]).take j = ((List.range n).take j).map
          LockEvent.invoke := by
      rw [List.take_append_of_le_length (by simpa using le_of_lt hj),
        ← List.map_take]
    rw [List.take_succ_cons, ht]
    have hz := lockDepth_map_invoke ((List.range n).take j)
    simp only [lockDepth]
    omega

/-- C8, counterexample to the claim as stated: with one registered
callback, the callback body (the invoke event at position 1 of the
delivery trace) runs while the callback-list lock is held, in both the
capture loop of `Camera` and `_emit_result` of `QRCodeProcessor`. -/
theorem c8_counterexample :
    (cameraDeliverTrace 1)[1]? = some (LockEvent.invoke 0) ∧
    heldAt (cameraDeliverTrace 1) 1 ∧
    (emitResultTrace 1)[1]? = some (LockEvent.invoke 0) ∧
    heldAt (emitResultTrace 1) 1 := by
  decide

/-- C8, amended: during delivery of frames or results to subscribers,
every callback body executes while the subscriber-list lock is held — the
`with self._callback_lock` block encloses the whole iteration including
the callback calls, in both delivery loops. -/
theorem c8_lock_held_during_callback_bodies (n k i m j l : Nat)
    (hc : (cameraDeliverTrace n)[k]? = some (LockEvent.invoke i))
    (hp : (emitResultTrace m)[j]? = some (LockEvent.invoke l)) :
    heldAt (cameraDeliverTrace n) k ∧ heldAt (emitResultTrace m) j := by
  have he : emitResultTrace m = cameraDeliverTrace m := rfl
  rw [he] at hp ⊢
  exact ⟨deliver_trace_held n k i hc, deliver_trace_held m j l hp⟩

/-- Witness for the amended C8 at a concrete input: one callback in each
loop; its body runs under the lock. -/
theorem c8_witness :
    heldAt (cameraDeliverTrace 1) 1 ∧ heldAt (emitResultTrace 1) 1 :=
  c8_lock_held_during_callback_bodies 1 1 0 1 1 0 (by decide) (by decide)

/-- Helper for C10: under Python slice semantics both effective slice
endpoints stay within the axis length, for arbitrary integer bounds. -/
theorem sliceIndices_le (n : Nat) (lo hi : Int) :
    (sliceIndices n lo hi).1 ≤ n ∧ (sliceIndices n lo hi).2 ≤ n := by
  unfold sliceIndices
  constructor <;> dsimp only <;> split <;> omega

/-- C10, counterexample to the claim as stated: the crop indices are not
all clamped into `[0, h]` and `[0, w]` — on a 5 by 5 image and a bbox at
(100, 100, 100, 100), the padded row start `max(0, y1 - 10) = 90`
exceeds `h = 5`. -/
theorem c10_counterexample :
    ¬ validSlice 5 (cropBounds 5 5 100 100 100 100).1
        (cropBounds 5 5 100 100 100 100).2.1 := by
  decide

/-- C10, amended: for every bbox, the padded crop bounds are clamped
below at 0 on the start side (`max(0, ·)`) and above at the axis length
on the stop side (`min(h or w, ·)`), and under Python slice semantics
the effective crop region always stays within the image, so the
grayscale crop is a valid, possibly empty, sub-array and cropping never
fails with an out-of-range access. -/
theorem c10_crop_clamped_and_slice_safe (h w : Nat) (x1 y1 x2 y2 : Int) :
    0 ≤ (cropBounds h w x1 y1 x2 y2).1 ∧
    (cropBounds h w x1 y1 x2 y2).2.1 ≤ (h : Int) ∧
    0 ≤ (cropBounds h w x1 y1 x2 y2).2.2.1 ∧
    (cropBounds h w x1 y1 x2 y2).2.2.2 ≤ (w : Int) ∧
    (sliceIndices h (cropBounds h w x1 y1 x2 y2).1
      (cropBounds h w x1 y1 x2 y2).2.1).1 ≤ h ∧
    (sliceIndices h (cropBounds h w x1 y1 x2 y2).1
      (cropBounds h w x1 y1 x2 y2).2.1).2 ≤ h ∧
    (sliceIndices w (cropBounds h w x1 y1 x2 y2).2.2.1
      (cropBounds h w x1 y1 x2 y2).2.2.2).1 ≤ w ∧
    (sliceIndices w (cropBounds h w x1 y1 x2 y2).2.2.1
      (cropBounds h w x1 y1 x2 y2).2.2.2).2 ≤ w := by
  refine ⟨?_, ?_, ?_, ?_, (sliceIndices_le _ _ _).1, (sliceIndices_le _ _ _).2,
    (sliceIndices_le _ _ _).1, (sliceIndices_le _ _ _).2⟩ <;>
    simp [cropBounds]
